import Mathlib

set_option maxRecDepth 8000

/-!
Verification development for the document-synchronization core of the
Real-Time-Collaborative-Document-Editor repository.

The definitions below are shallow embeddings of the TypeScript source:
`CollaborativeEditor` (saveDocument, updateTitle, handleDocumentChange and
the auto-save `useEffect`), `DocumentSettings.saveSettings`, and the
`documents` / `document_activity` tables of the Supabase migration.
Timestamps are modelled as `Nat` where the store's ordering matters and as
ISO strings where the code compares strings.  The React render/effect
semantics (closure capture of state values per render, effect re-runs keyed
on the dependency array) are modelled explicitly for the auto-save logic.
-/

namespace CollabEditor

/-- Whitespace predicate for the JS `String.prototype.trim` model. -/
def jsIsSpace (c : Char) : Bool :=
  c = ' ' || c = '\t' || c = '\n' || c = '\r'

/-- Model of JS `String.prototype.trim`: drop leading and trailing whitespace. -/
def jsTrim (s : String) : String :=
  ⟨((s.data.dropWhile jsIsSpace).reverse.dropWhile jsIsSpace).reverse⟩

/-- `details` payload of a `document_activity` row, as inserted by the code:
`{ type: 'content_update' }` for saves, `{ old_title, new_title }` for renames. -/
inductive ActivityDetails where
  | contentUpdate : ActivityDetails
  | rename (oldTitle newTitle : String) : ActivityDetails
  deriving DecidableEq, Repr

/-- One `document_activity` row as inserted by the component. -/
structure ActivityEntry where
  documentId : String
  userId : String
  action : String
  details : ActivityDetails
  deriving DecidableEq, Repr

/-- The persisted `documents` row (fields the sync core touches). -/
structure StoreDoc where
  title : String
  content : String
  updatedAt : Nat
  deriving DecidableEq, Repr

/-- The `CollaborativeEditor` component state relevant to saving.
`localContent` is the editor's current document (`editor.getJSON()`),
`dirty` is `hasUnsavedChanges`, `docUpdatedAt` is the `updated_at` of the
`document` state object the session last loaded (its baseline) — the code
stores it but `saveDocument` never consults it. -/
structure Session where
  documentId : String
  userId : String
  title : String
  localContent : String
  dirty : Bool
  saving : Bool
  editingTitle : Bool
  lastSavedAt : Option Nat
  docUpdatedAt : Nat
  hasDocument : Bool
  hasUser : Bool
  deriving DecidableEq, Repr

/-- A local edit: the editor holds the new content and `onUpdate` sets
`hasUnsavedChanges` to true. -/
def applyLocalEdit (s : Session) (c : String) : Session :=
  { s with localContent := c, dirty := true }

/-- Embedding of `saveDocument`: guard `(!editor || !document || saving || !user)`,
then an unconditional `update({title, content, updated_at: now}).eq('id', documentId)`
— no compare-and-swap on `updated_at`.  On success the activity insert's
result is ignored (`activityOk` only decides whether the row lands), then
`setLastSaved(now)` and `setHasUnsavedChanges(false)`.  On a primary error the
catch block only toasts; `finally` clears `saving`. -/
def saveDocument (s : Session) (store : StoreDoc) (acts : List ActivityEntry)
    (now : Nat) (primaryOk : Bool) (activityOk : Bool) :
    Session × StoreDoc × List ActivityEntry :=
  if !s.hasDocument || s.saving || !s.hasUser then (s, store, acts)
  else if primaryOk then
    let store1 : StoreDoc := { title := s.title, content := s.localContent, updatedAt := now }
    let acts1 := if activityOk then
        acts ++ [⟨s.documentId, s.userId, "edited", .contentUpdate⟩]
      else acts
    ({ s with dirty := false, lastSavedAt := some now, saving := false }, store1, acts1)
  else
    ({ s with saving := false }, store, acts)

/-- Embedding of `updateTitle`: guard `(!document || !user || !newTitle.trim())`,
then `update({ title: trimmedTitle })` (the client call writes only the title);
on success the activity insert's result is ignored, then `setTitle` and
`setIsEditingTitle(false)`; on a primary error the catch block only toasts. -/
def updateTitle (s : Session) (store : StoreDoc) (acts : List ActivityEntry)
    (newTitle : String) (primaryOk : Bool) (activityOk : Bool) :
    Session × StoreDoc × List ActivityEntry :=
  if !s.hasDocument || !s.hasUser || jsTrim newTitle = "" then (s, store, acts)
  else if primaryOk then
    let t := jsTrim newTitle
    let acts1 := if activityOk then
        acts ++ [⟨s.documentId, s.userId, "renamed", .rename s.title t⟩]
      else acts
    ({ s with title := t, editingTitle := false }, { store with title := t }, acts1)
  else
    (s, store, acts)

/-- Embedding of `DocumentSettings.saveSettings` (title part): if the dialog's
`localTitle` differs from the current title it runs
`update({ title: localTitle })` with no emptiness or trim check, then
`onTitleChange(localTitle)`.  Returns the new store row and the new title
state. -/
def saveSettings (localTitle : String) (curTitle : String) (store : StoreDoc)
    (updateOk : Bool) : StoreDoc × String :=
  if localTitle ≠ curTitle then
    if updateOk then ({ store with title := localTitle }, localTitle)
    else (store, curTitle)
  else (store, curTitle)

/-! ### Change-feed handler (`handleDocumentChange`) -/

/-- The shape of `payload.new.content` as the handler discriminates it:
a JS string, a non-array object (with or without a `type`/`content` key),
an array, or null.  The payload string names the concrete value. -/
inductive TContent where
  | str (s : String) : TContent
  | obj (hasTypeOrContentKey : Bool) (p : String) : TContent
  | arr (p : String) : TContent
  | nullc : TContent
  deriving DecidableEq, Repr

/-- JS truthiness of `payload.new.content`: `''`, `null` are falsy;
any object or array is truthy. -/
def contentTruthy : TContent → Bool
  | .str s => s ≠ ""
  | .obj _ _ => true
  | .arr _ => true
  | .nullc => false

/-- What `editor.commands.setContent` receives in each branch of the handler:
strings and TipTap-shaped objects are passed as-is, other objects and arrays
are `JSON.stringify`-ed first. -/
def setVal : TContent → String
  | .str s => s
  | .obj true p => p
  | .obj false p => "JSON:" ++ p
  | .arr p => "JSON:" ++ p
  | .nullc => ""

/-- A `postgres_changes` event row for the `documents` table. -/
structure FeedPayload where
  id : String
  title : String
  content : TContent
  updatedAt : String
  deriving DecidableEq, Repr

/-- Component state the change-feed handler reads and writes.
`lastSaved` is the client-recorded save time as an ISO string
(`lastSaved?.toISOString()`), `editorContent` the editor's document. -/
structure FeedSession where
  documentId : String
  docTitle : String
  editorContent : String
  dirty : Bool
  lastSaved : Option String
  hasEditor : Bool
  deriving DecidableEq, Repr

/-- The JS comparison `payload.new.updated_at !== lastSaved?.toISOString()`:
when `lastSaved` is null the optional chain yields `undefined`, and a string
is always `!==` `undefined`. -/
def tsDiffers (lastSaved : Option String) (updatedAt : String) : Bool :=
  match lastSaved with
  | none => true
  | some iso => updatedAt ≠ iso

/-- Embedding of `handleDocumentChange`: on an id match it always updates the
`document` and `title` state, and replaces the editor content when the editor
exists, the payload content is truthy, and `updated_at` differs (as a string)
from the recorded `lastSaved`.  The `dirty` flag is never consulted, and
TipTap's `setContent` does not emit an update, so `dirty` is unchanged. -/
def handleDocumentChange (s : FeedSession) (p : FeedPayload) : FeedSession :=
  if p.id = s.documentId then
    let s1 := { s with docTitle := p.title }
    if s.hasEditor && contentTruthy p.content && tsDiffers s.lastSaved p.updatedAt then
      { s1 with editorContent := setVal p.content }
    else s1
  else s

/-! ### Auto-save timing machine

An operational model of the component's auto-save `useEffect`
(`[hasUnsavedChanges, autoSaveEnabled, autoSaveInterval, saving]` dependency
array), the timers it creates, and React's closure semantics: the effect
body and its returned cleanup close over the state values of the render in
which the effect ran, and state updates re-run the effect only when a value
in the dependency array changed.  A `setTimeout` entry survives unmount and
its callback is the `saveDocument` closure of the render that created it,
whose `saving` guard value was captured then. -/

/-- One pending `setTimeout` entry: its id, absolute deadline, and the
`saving` value captured by the `saveDocument` closure the timer will call. -/
structure TimerRec where
  tid : Nat
  deadline : Nat
  capturedSaving : Bool
  deriving DecidableEq, Repr

/-- The operational state of the mounted component plus the browser's timer
queue and the persistence side we observe.  `autoSaveTimer` is the React
state variable; `cleanupCaptured` is the `autoSaveTimer` value closed over
by the currently registered effect cleanup; `prevDeps` is the dependency
array as of the last effect run; `completions` are scheduled finish times of
in-flight saves; `saveLog` records each store write as (start, finish). -/
structure Machine where
  now : Nat
  mounted : Bool
  dirty : Bool
  saving : Bool
  enabled : Bool
  intervalS : Nat
  autoSaveTimer : Option Nat
  timers : List TimerRec
  cleanupCaptured : Option Nat
  prevDeps : Bool × Bool × Nat × Bool
  nextTid : Nat
  completions : List Nat
  saveLog : List (Nat × Nat)
  subscribed : Bool
  deriving DecidableEq, Repr

/-- The effect's dependency array `[hasUnsavedChanges, autoSaveEnabled,
autoSaveInterval, saving]`. -/
def autoDeps (m : Machine) : Bool × Bool × Nat × Bool :=
  (m.dirty, m.enabled, m.intervalS, m.saving)

/-- `clearTimeout(id)`: remove a timer by id (a no-op on an absent id). -/
def clearTimer (ts : List TimerRec) (id : Option Nat) : List TimerRec :=
  ts.filter (fun tr => some tr.tid ≠ id)

/-- Run the auto-save effect after a state change, per React semantics:
nothing happens unless a dependency changed; otherwise the previously
registered cleanup runs first (clearing the `autoSaveTimer` it captured,
which is the state value of the render whose effect registered it), then the
body runs with the current state: when `enabled && dirty && !saving` it
clears the current `autoSaveTimer`, arms a fresh timer for `interval`
seconds, and calls `setAutoSaveTimer` — which does not re-run the effect,
so the new cleanup still captures the pre-update `autoSaveTimer`. -/
def runEffects (m : Machine) : Machine :=
  if !m.mounted then m
  else if autoDeps m = m.prevDeps then m
  else
    let ts1 := clearTimer m.timers m.cleanupCaptured
    if m.enabled && m.dirty && !m.saving then
      let ts2 := clearTimer ts1 m.autoSaveTimer
      let tr : TimerRec := ⟨m.nextTid, m.now + m.intervalS, m.saving⟩
      { m with timers := ts2 ++ [tr],
               cleanupCaptured := m.autoSaveTimer,
               autoSaveTimer := some m.nextTid,
               nextTid := m.nextTid + 1,
               prevDeps := autoDeps m }
    else
      { m with timers := ts1,
               cleanupCaptured := m.autoSaveTimer,
               prevDeps := autoDeps m }

/-- Invoke a `saveDocument` closure whose captured `saving` is
`capturedSaving`.  The guard returns early on a truthy captured `saving`;
otherwise the store write is issued (logged with its completion time) and,
on a mounted component, `setSaving(true)` commits and the effect re-runs.
After unmount the state update is a no-op but the write still happens. -/
def startSave (m : Machine) (capturedSaving : Bool) (dur : Nat) : Machine :=
  if capturedSaving then m
  else
    let m1 := { m with saveLog := m.saveLog ++ [(m.now, m.now + dur)],
                       completions := m.completions ++ [m.now + dur] }
    if m.mounted then runEffects { m1 with saving := true } else m1

/-- A save finishing successfully: `setLastSaved`, `setHasUnsavedChanges(false)`
and the `finally` `setSaving(false)` commit in one batch, then the effect
re-runs.  On an unmounted component the state updates are no-ops. -/
def completeSave (m : Machine) : Machine :=
  if m.mounted then runEffects { m with dirty := false, saving := false } else m

/-- Duration of a timer-fired auto-save in the concrete scenarios. -/
def autoFireDur : Nat := 1

/-- Smallest element of a list of times, if any. -/
def minTime : List Nat → Option Nat
  | [] => none
  | x :: xs => some (xs.foldl Nat.min x)

/-- Remove the first occurrence of a value. -/
def removeFirst : List Nat → Nat → List Nat
  | [], _ => []
  | x :: xs, v => if x = v then xs else x :: removeFirst xs v

/-- Advance wall-clock time to `t`, firing due timers and save completions
in chronological order (completions before timers at equal instants).
`fuel` bounds the number of queue items processed; every processed item is
consumed and processing creates no new timers, so any fuel at least the
queue length is exact. -/
def advanceTo : Nat → Machine → Nat → Machine
  | 0, m, t => { m with now := t }
  | fuel + 1, m, t =>
    let due := m.completions.filter (fun c => c ≤ t)
      ++ (m.timers.map TimerRec.deadline).filter (fun d => d ≤ t)
    match minTime due with
    | none => { m with now := t }
    | some u =>
      if m.completions.contains u then
        advanceTo fuel
          (completeSave { m with now := u, completions := removeFirst m.completions u }) t
      else
        match m.timers.find? (fun tr => tr.deadline = u) with
        | some tr =>
          advanceTo fuel
            (startSave { m with now := u, timers := clearTimer m.timers (some tr.tid) }
              tr.capturedSaving autoFireDur) t
        | none => { m with now := t }

/-- A local edit at the current instant: `onUpdate` sets
`hasUnsavedChanges`; if it was already true React bails out and no effect
runs. -/
def doEdit (m : Machine) : Machine :=
  if m.mounted then
    if m.dirty then m else runEffects { m with dirty := true }
  else m

/-- The save button: disabled while `saving || !hasUnsavedChanges`; clicking
it calls the current render's `saveDocument`, whose captured `saving` is the
current value. -/
def doManualSave (m : Machine) (dur : Nat) : Machine :=
  if m.mounted && m.dirty && !m.saving then startSave m m.saving dur else m

/-- Closing the document view (unmount): the registered effect cleanups run.
The auto-save cleanup clears the `autoSaveTimer` it captured at its render;
the subscription cleanup removes the channel (the channel is captured in
that effect's own scope, so unsubscription always works). -/
def doClose (m : Machine) : Machine :=
  if m.mounted then
    { m with timers := clearTimer m.timers m.cleanupCaptured,
             subscribed := false, mounted := false }
  else m

/-- Driver events, each stamped with the time at which it occurs. -/
inductive Ev where
  | edit (t : Nat) : Ev
  | manualSave (t dur : Nat) : Ev
  | close (t : Nat) : Ev
  | flush (t : Nat) : Ev
  deriving DecidableEq, Repr

/-- Process one event: first let time advance to its instant (firing due
timers and completions), then apply it. -/
def stepEv (m : Machine) : Ev → Machine
  | .edit t => doEdit (advanceTo 50 m t)
  | .manualSave t dur => doManualSave (advanceTo 50 m t) dur
  | .close t => doClose (advanceTo 50 m t)
  | .flush t => advanceTo 50 m t

/-- The component right after mount and initial load: clean, not saving,
auto-save enabled, subscribed, the mount effect run recorded in `prevDeps`. -/
def initMachine (interval : Nat) : Machine :=
  { now := 0, mounted := true, dirty := false, saving := false, enabled := true,
    intervalS := interval, autoSaveTimer := none, timers := [],
    cleanupCaptured := none, prevDeps := (false, true, interval, false),
    nextTid := 1, completions := [], saveLog := [], subscribed := true }

/-- Run a list of events from the freshly mounted component. -/
def runEvents (interval : Nat) (evs : List Ev) : Machine :=
  evs.foldl stepEv (initMachine interval)

/-- C4 scenario: auto-save interval 10 s, the user types continuously for
25 s (one keystroke per second), then the session goes quiet. -/
def burstEvents : List Ev :=
  ((List.range 26).map Ev.edit) ++ [Ev.flush 60]

/-- Machine state after the 25-second typing burst. -/
def runBurst : Machine := runEvents 10 burstEvents

/-- C5 scenario: one edit at t=0 arms the 10 s auto-save timer; a manual
save starts at t=9 and stays in flight until t=12. -/
def overlapEvents : List Ev :=
  [Ev.edit 0, Ev.manualSave 9 3, Ev.flush 30]

/-- Machine state after the manual-save/auto-save overlap scenario. -/
def runOverlap : Machine := runEvents 10 overlapEvents

/-- C6 scenario: one edit at t=0 arms the 10 s auto-save timer; the view is
closed at t=5; time then passes. -/
def closeEvents : List Ev :=
  [Ev.edit 0, Ev.close 5, Ev.flush 30]

/-- Machine state after the close-then-wait scenario. -/
def runClose : Machine := runEvents 10 closeEvents

/-! ### Concrete fixtures used by the claim theorems and witnesses -/

/-- A session that has loaded the document: clean editor, nothing in flight. -/
def sesAlpha : Session :=
  { documentId := "doc-1", userId := "user-1", title := "Doc", localContent := "",
    dirty := false, saving := false, editingTitle := false, lastSavedAt := none,
    docUpdatedAt := 1, hasDocument := true, hasUser := true }

/-- Session B of the concurrent-save scenario: it loaded the document at
`updated_at = 1` (its baseline) and holds an unsaved local edit. -/
def sessionB : Session :=
  { sesAlpha with userId := "user-b", localContent := "B edit", dirty := true }

/-- The persisted row after session A's save committed at time 2. -/
def storeAfterA : StoreDoc := { title := "Doc", content := "A edit", updatedAt := 2 }

/-- A persisted row titled `Draft`. -/
def storeDraft : StoreDoc := { title := "Draft", content := "body", updatedAt := 1 }

/-- The session about to rename `Draft`. -/
def draftSession : Session := { sesAlpha with title := "Draft" }

/-- A feed session holding unsaved local edits (`hasUnsavedChanges = true`). -/
def dirtySession : FeedSession :=
  { documentId := "doc-1", docTitle := "Doc", editorContent := "local unsaved edits",
    dirty := true, lastSaved := some "2025-01-01T00:00:00.000Z", hasEditor := true }

/-- A change-feed row for the same document carrying another client's content. -/
def remotePayload : FeedPayload :=
  { id := "doc-1", title := "Doc", content := .str "remote content",
    updatedAt := "2025-01-01T00:00:05.000Z" }

/-- A clean feed session that just recorded its own save at the client clock. -/
def echoSession : FeedSession :=
  { documentId := "doc-1", docTitle := "Doc", editorContent := "current",
    dirty := false, lastSaved := some "2025-01-01T00:00:00.000Z", hasEditor := true }

/-- The change-feed echo of that same save: the server-side trigger assigned
its own `updated_at`, so the string differs from the client-recorded one. -/
def echoPayload : FeedPayload :=
  { id := "doc-1", title := "Doc", content := .obj true "tiptap-doc",
    updatedAt := "2025-01-01T00:00:00.123Z" }

/-! ### Helper lemmas -/

/-- Folding local edits never changes `hasDocument`. -/
lemma foldl_applyLocalEdit_hasDocument :
    ∀ (edits : List String) (s : Session),
      (edits.foldl applyLocalEdit s).hasDocument = s.hasDocument
  | [], _ => rfl
  | _ :: es, s => foldl_applyLocalEdit_hasDocument es (applyLocalEdit s _)

/-- Folding local edits never changes `hasUser`. -/
lemma foldl_applyLocalEdit_hasUser :
    ∀ (edits : List String) (s : Session),
      (edits.foldl applyLocalEdit s).hasUser = s.hasUser
  | [], _ => rfl
  | _ :: es, s => foldl_applyLocalEdit_hasUser es (applyLocalEdit s _)

/-- Folding local edits never changes `saving`. -/
lemma foldl_applyLocalEdit_saving :
    ∀ (edits : List String) (s : Session),
      (edits.foldl applyLocalEdit s).saving = s.saving
  | [], _ => rfl
  | _ :: es, s => foldl_applyLocalEdit_saving es (applyLocalEdit s _)

/-- After folding a non-empty list of local edits, the editor holds the last
edit's content. -/
lemma foldl_applyLocalEdit_localContent :
    ∀ (edits : List String) (s : Session) (c : String),
      edits.getLast? = some c → (edits.foldl applyLocalEdit s).localContent = c
  | [], _, _, h => by simp at h
  | [e], s, c, h => by
      simp only [List.getLast?_singleton, Option.some.injEq] at h
      simpa [applyLocalEdit] using h
  | e :: e2 :: es, s, c, h => by
      rw [List.getLast?_cons_cons] at h
      exact foldl_applyLocalEdit_localContent (e2 :: es) (applyLocalEdit s e) c h

/-! ### Claim theorems -/

/-- C1: the claim says a save issued with a stale `expectedUpdatedAt` fails
with `StaleWrite` and never overwrites the newer persisted value.  The code
has no compare-and-swap: `saveDocument` updates unconditionally keyed only on
the document id.  Here session B's baseline (`docUpdatedAt = 1`) is strictly
older than the persisted row (`updatedAt = 2`, holding session A's edit), yet
B's save succeeds — the session clears `dirty`, records `lastSavedAt`, and
the persisted content `"A edit"` is replaced by `"B edit"` with no error. -/
theorem c1_stale_save_silently_overwrites :
    sessionB.docUpdatedAt < storeAfterA.updatedAt
    ∧ storeAfterA.content = "A edit"
    ∧ (saveDocument sessionB storeAfterA [] 3 true true).2.1.content = "B edit"
    ∧ (saveDocument sessionB storeAfterA [] 3 true true).2.1.updatedAt = 3
    ∧ (saveDocument sessionB storeAfterA [] 3 true true).1.dirty = false
    ∧ (saveDocument sessionB storeAfterA [] 3 true true).1.lastSavedAt = some 3 := by
  decide

/-- C2: the claim says applying a remote update while `Dirty` leaves the
editor content unchanged.  `handleDocumentChange` never consults
`hasUnsavedChanges`: with the session dirty and holding
`"local unsaved edits"`, a matching remote event whose `updated_at` differs
from `lastSaved` replaces the editor content with `"remote content"`,
destroying the unsaved local edits. -/
theorem c2_remote_update_clobbers_dirty_editor :
    dirtySession.dirty = true
    ∧ dirtySession.editorContent = "local unsaved edits"
    ∧ (handleDocumentChange dirtySession remotePayload).editorContent = "remote content"
    ∧ (handleDocumentChange dirtySession remotePayload).editorContent
        ≠ dirtySession.editorContent := by
  decide

/-- C3: for every non-empty sequence of local edits followed by a successful
save, the persisted content equals the last edit made before the save
started — `saveDocument` reads the current editor document
(`editor.getJSON()`) at save start, which after the fold is the last edit. -/
theorem c3_persisted_content_is_last_edit
    (s : Session) (store : StoreDoc) (acts : List ActivityEntry)
    (now : Nat) (activityOk : Bool) (edits : List String) (c : String)
    (hdoc : s.hasDocument = true) (huser : s.hasUser = true)
    (hsav : s.saving = false) (hlast : edits.getLast? = some c) :
    (saveDocument (edits.foldl applyLocalEdit s) store acts now true activityOk).2.1.content
      = c := by
  have h1 := foldl_applyLocalEdit_hasDocument edits s
  have h2 := foldl_applyLocalEdit_hasUser edits s
  have h3 := foldl_applyLocalEdit_saving edits s
  have h4 := foldl_applyLocalEdit_localContent edits s c hlast
  simp [saveDocument, h1, h2, h3, h4, hdoc, huser, hsav]

/-- Witness for C3: edits `"a"`, `"ab"`, `"final text"` then a save; the
store receives `"final text"`. -/
theorem c3_persisted_content_is_last_edit_witness :
    (["a", "ab", "final text"].getLast? = some "final text")
    ∧ (saveDocument (["a", "ab", "final text"].foldl applyLocalEdit sesAlpha)
        storeDraft [] 5 true true).2.1.content = "final text" :=
  ⟨by decide,
   c3_persisted_content_is_last_edit sesAlpha storeDraft [] 5 true
     ["a", "ab", "final text"] "final text" rfl rfl rfl (by decide)⟩

/-- C4: the claim says a burst of edits within one debounce window yields
exactly one save, fired only after a full interval of inactivity following
the final edit (interval 10 s, typing for 25 s, one save at t = 35).  The
effect's dependency array only contains the `hasUnsavedChanges` flag, which
stays `true` during the burst, so later keystrokes never reset the timer:
the run fires saves starting at t = 10, 21 and 32 — three saves, the first
in the middle of the burst, none 10 s after the last keystroke. -/
theorem c4_typing_burst_fires_three_saves :
    runBurst.saveLog = [(10, 11), (21, 22), (32, 33)]
    ∧ runBurst.saveLog.length = 3 := by
  decide

/-- C5: the claim says no new save begins while one is in flight.  The timer
armed by the edit at t = 0 survives the manual save started at t = 9 (the
effect cleanup captured a stale `autoSaveTimer`), and when it fires at
t = 10 it invokes the `saveDocument` closure of the render that created it,
whose captured `saving` is `false` — so a second save starts at t = 10
while the manual save is still in flight until t = 12. -/
theorem c5_auto_fire_starts_save_during_inflight_save :
    runOverlap.saveLog = [(9, 12), (10, 11)] := by
  decide

/-- C6: the claim says `close()` always cancels the pending auto-save timer
and no save fires after close.  The unmount cleanup clears the
`autoSaveTimer` value captured when the effect last ran — `none`, since
`setAutoSaveTimer` does not re-run the effect — so the timer armed at t = 0
survives the close at t = 5 and issues a store write at t = 10 on behalf of
the closed session.  The change-feed channel is correctly unsubscribed. -/
theorem c6_pending_timer_saves_after_close :
    runClose.mounted = false
    ∧ runClose.subscribed = false
    ∧ runClose.saveLog = [(10, 11)] := by
  decide

/-- C7: a failure of the best-effort activity insert never fails or rolls
back the primary operation: for both `saveDocument` and `updateTitle` the
resulting session and store are identical whether the activity insert lands
or fails, and the primary outcome stands (dirty cleared and `lastSavedAt`
set after a save; the trimmed title committed after a rename). -/
theorem c7_activity_failure_never_rolls_back_primary
    (s : Session) (store : StoreDoc) (acts : List ActivityEntry) (now : Nat)
    (nt : String) (hdoc : s.hasDocument = true) (huser : s.hasUser = true)
    (hsav : s.saving = false) (ht : jsTrim nt ≠ "") :
    ((saveDocument s store acts now true false).1
        = (saveDocument s store acts now true true).1
      ∧ (saveDocument s store acts now true false).2.1
        = (saveDocument s store acts now true true).2.1
      ∧ (saveDocument s store acts now true false).1.dirty = false
      ∧ (saveDocument s store acts now true false).1.lastSavedAt = some now)
    ∧ ((updateTitle s store acts nt true false).1
        = (updateTitle s store acts nt true true).1
      ∧ (updateTitle s store acts nt true false).2.1
        = (updateTitle s store acts nt true true).2.1
      ∧ (updateTitle s store acts nt true false).1.title = jsTrim nt
      ∧ (updateTitle s store acts nt true false).2.1.title = jsTrim nt) := by
  simp [saveDocument, updateTitle, hdoc, huser, hsav, ht]

/-- Witness for C7: a save and a rename whose activity inserts fail still
commit their primary outcomes. -/
theorem c7_activity_failure_never_rolls_back_primary_witness :
    jsTrim "  Report " ≠ ""
    ∧ (saveDocument sesAlpha storeDraft [] 5 true false).1.dirty = false
    ∧ (updateTitle sesAlpha storeDraft [] "  Report " true false).2.1.title = "Report" := by
  have h := c7_activity_failure_never_rolls_back_primary sesAlpha storeDraft [] 5
    "  Report " rfl rfl rfl (by decide)
  exact ⟨by decide, h.1.2.2.1, h.2.2.2.2.trans (by decide)⟩

/-- C8: a committed in-place rename appends exactly one activity entry with
action `renamed` and details `{old_title, new_title}` — the old title is the
session's current title and the new one the trimmed input — and commits the
trimmed title to the store. -/
theorem c8_rename_appends_single_renamed_activity
    (s : Session) (store : StoreDoc) (acts : List ActivityEntry) (nt : String)
    (hdoc : s.hasDocument = true) (huser : s.hasUser = true)
    (ht : jsTrim nt ≠ "") :
    (updateTitle s store acts nt true true).2.2
      = acts ++ [⟨s.documentId, s.userId, "renamed", .rename s.title (jsTrim nt)⟩]
    ∧ (updateTitle s store acts nt true true).2.1.title = jsTrim nt := by
  simp [updateTitle, hdoc, huser, ht]

/-- Witness for C8: renaming `"Draft"` to `"Report"` records
`{old_title: "Draft", new_title: "Report"}` with action `renamed`. -/
theorem c8_rename_appends_single_renamed_activity_witness :
    jsTrim "Report" ≠ ""
    ∧ (updateTitle draftSession storeDraft [] "Report" true true).2.2
        = [⟨"doc-1", "user-1", "renamed", ActivityDetails.rename "Draft" "Report"⟩]
    ∧ (updateTitle draftSession storeDraft [] "Report" true true).2.1.title = "Report" := by
  have h := c8_rename_appends_single_renamed_activity draftSession storeDraft []
    "Report" rfl rfl (by decide)
  exact ⟨by decide, h.1, h.2⟩

/-- C9: the claim says every title-writing operation preserves the non-empty
title invariant, rejecting an empty title as `Invalid`.  The in-place rename
path does guard (`updateTitle` on a whitespace title leaves everything
unchanged), but `DocumentSettings.saveSettings` has no check: clearing the
title field and saving settings persists the empty string over `"Draft"`. -/
theorem c9_settings_save_persists_empty_title :
    storeDraft.title ≠ ""
    ∧ (saveSettings "" "Draft" storeDraft true).1.title = ""
    ∧ (saveSettings "" "Draft" storeDraft true).2 = ""
    ∧ updateTitle draftSession storeDraft [] "   " true true
        = (draftSession, storeDraft, []) := by
  decide

/-- C10: for every change-feed document event whose payload carries (truthy)
content, the handler replaces the editor content (with the payload, in the
shape `setContent` receives) exactly when the event's id equals the open
document's id and its `updated_at`, compared as a string, differs from the
session's recorded `lastSaved`; otherwise the editor content is unchanged.
The session's `dirty` flag and the acting user are quantified over /
absent — nothing else gates the replacement, so an echo of the session's
own save whose server-assigned `updated_at` differs is re-applied. -/
theorem c10_feed_replacement_iff_id_and_timestamp
    (s : FeedSession) (p : FeedPayload)
    (hed : s.hasEditor = true) (hc : contentTruthy p.content = true) :
    (handleDocumentChange s p).editorContent
      = if p.id = s.documentId ∧ tsDiffers s.lastSaved p.updatedAt = true
        then setVal p.content else s.editorContent := by
  by_cases h1 : p.id = s.documentId
  · by_cases h2 : tsDiffers s.lastSaved p.updatedAt = true
    · simp [handleDocumentChange, h1, h2, hed, hc]
    · simp [handleDocumentChange, h1, h2, hed, hc]
  · simp [handleDocumentChange, h1]

/-- Witness for C10: the echo of the session's own save, whose
server-assigned `updated_at` string differs from the client-recorded
`lastSaved`, is re-applied to the editor. -/
theorem c10_feed_replacement_iff_id_and_timestamp_witness :
    echoSession.hasEditor = true
    ∧ contentTruthy echoPayload.content = true
    ∧ (handleDocumentChange echoSession echoPayload).editorContent = "tiptap-doc" := by
  have h := c10_feed_replacement_iff_id_and_timestamp echoSession echoPayload rfl rfl
  exact ⟨rfl, rfl, h.trans (by decide)⟩

end CollabEditor
